import Mathlib

/-!
Shallow embedding of the WhatsApp webhook bot (repository
`whatsapp-bot-openai`), which ships two near-duplicate implementations:
`main.py` and `codigo_comentado.py`.  Pure string manipulation is modelled
directly; the two external services are passed in as explicit functions:
the completion provider as `String → Except String String` (user content in,
reply text or error out) and the Google-Sheets stack as outcome fields of an
`Env` record.  Side effects (invocations of `log_message` and actual
`append_row` writes) are reified as a trace of `Eff` values returned next to
the HTTP response.

Python string methods are modelled over the character list underlying a
`String` so that all definitions reduce in the kernel:
  `s.strip()`  ↦ `pyStrip`, `s.lower()` ↦ `pyLower`,
  `s.startswith(p)` ↦ `pyStartswith s p`, `s[n:]` ↦ `pyDrop s n`,
  `a or b` (on strings) ↦ `pyOr a b`.
-/

/-- Python `s.strip()`: remove leading and trailing whitespace. -/
def pyStrip (s : String) : String :=
  ⟨((s.data.dropWhile Char.isWhitespace).reverse.dropWhile Char.isWhitespace).reverse⟩

/-- Python `s.lower()` (ASCII case folding, which covers every command word). -/
def pyLower (s : String) : String := ⟨s.data.map Char.toLower⟩

/-- Python `s.startswith(pre)`. -/
def pyStartswith (s pre : String) : Bool := pre.data.isPrefixOf s.data

/-- Python `s[n:]` (character-based slicing from index `n`). -/
def pyDrop (s : String) (n : Nat) : String := ⟨s.data.drop n⟩

/-- Python `a or b` restricted to strings: `b` when `a` is falsy (empty). -/
def pyOr (a b : String) : String := if a = "" then b else a

/-- The inbound HTTP request: method, the `debug` query argument
(`request.args.get("debug")`), and the two form fields
(`request.form.get("Body")`, `request.form.get("From")`).
`none` models an absent key. -/
structure HttpRequest where
  method : String
  debugArg : Option String
  formBody : Option String
  formFrom : Option String
deriving DecidableEq

/-- A Flask response as built by `make_response`: body, status code, and the
`Content-Type` header when one is set. -/
structure HttpResponse where
  body : String
  status : Nat
  contentType : Option String
deriving DecidableEq

/-- Observable side effects of a request, in order:
`logCall` marks an invocation of `log_message` (with its three arguments) and
`appendRow` an actual `ws.append_row` write of a four-cell row. -/
inductive Eff where
  | logCall (sender body reply : String)
  | appendRow (row : List String)
deriving DecidableEq

/-- A credential-resolution attempt: ambient (ADC) with its scopes, or
file-based with the keyfile path and scopes. -/
inductive CredAttempt where
  | adcAttempt (scopes : List String)
  | fileAttempt (path : String) (scopes : List String)
deriving DecidableEq

/-- The fixed scope pair both resolution attempts use (both files declare the
same literal list inside `_get_google_creds`). -/
def SCOPES : List String :=
  ["https://www.googleapis.com/auth/spreadsheets",
   "https://www.googleapis.com/auth/drive"]

/-- Behaviour of the external world for one request: the configured
spreadsheet id, the outcome of `google.auth.default` as a function of the
scopes, the outcome of `Credentials.from_service_account_file` as a function
of path and scopes, the keyfile path, the outcomes of opening the
spreadsheet/worksheet and of `append_row`, the completion provider, and the
timestamp `time.strftime` returns. -/
structure Env where
  sheetId : String
  adcF : List String → Except String String
  fileF : String → List String → Except String String
  credsPath : String
  openW : Except String Unit
  appendW : Except String Unit
  provider : String → Except String String
  now : String

/-- `_get_google_creds` (identical logic in both files): try ADC with
`SCOPES`; on any failure try the keyfile with the same `SCOPES`; re-raise the
file error when both fail.  The second component records the attempts made,
in order. -/
def _get_google_creds (adcF : List String → Except String String)
    (fileF : String → List String → Except String String) (credsPath : String) :
    Except String String × List CredAttempt :=
  match adcF SCOPES with
  | Except.ok c => (Except.ok c, [CredAttempt.adcAttempt SCOPES])
  | Except.error _ =>
    match fileF credsPath SCOPES with
    | Except.ok c =>
      (Except.ok c,
       [CredAttempt.adcAttempt SCOPES, CredAttempt.fileAttempt credsPath SCOPES])
    | Except.error e =>
      (Except.error e,
       [CredAttempt.adcAttempt SCOPES, CredAttempt.fileAttempt credsPath SCOPES])

/-- `Except` value is an error. -/
def isErr (x : Except String String) : Bool :=
  match x with
  | Except.error _ => true
  | Except.ok _ => false

/-- `_get_sheet`: raise when `SHEET_ID` is empty, else resolve credentials,
then open the spreadsheet and select the worksheet (folded into `openW`). -/
def _get_sheet (env : Env) : Except String Unit :=
  if env.sheetId = "" then Except.error "SHEET_ID vacío"
  else
    match (_get_google_creds env.adcF env.fileF env.credsPath).1 with
    | Except.error e => Except.error e
    | Except.ok _ => env.openW

/-- `log_message` (identical logic in both files): always an invocation; a row
`[ts, sender or "-", body or "", reply or ""]` is appended only when
`_get_sheet` and `append_row` both succeed; every failure is swallowed. -/
def log_message (env : Env) (sender body reply : String) : List Eff :=
  Eff.logCall sender body reply ::
    match _get_sheet env with
    | Except.error _ => []
    | Except.ok _ =>
      match env.appendW with
      | Except.error _ => []
      | Except.ok _ =>
        [Eff.appendRow [env.now, pyOr sender "-", pyOr body "", pyOr reply ""]]

/-- `str(MessagingResponse().message(r))`: the TwiML XML envelope. -/
def twiml (reply : String) : String :=
  "<?xml version=\"1.0\" encoding=\"UTF-8\"?><Response><Message>" ++ reply
    ++ "</Message></Response>"

/-- Count of `log_message` invocations in a trace. -/
def countLog (effs : List Eff) : Nat :=
  effs.countP fun e =>
    match e with
    | Eff.logCall _ _ _ => true
    | Eff.appendRow _ => false

namespace MainPy

/-- `main.py` `_ai_reply`: call the provider with `text or "(mensaje vacío)"`;
on success `(content or "No pude generar respuesta.").strip()`; on any
exception an apology string embedding the error. -/
def _ai_reply (provider : String → Except String String) (text : String) : String :=
  match provider (pyOr text "(mensaje vacío)") with
  | Except.ok content => pyStrip (pyOr content "No pude generar respuesta.")
  | Except.error e => "Ups, hubo un error consultando a IA: " ++ e

/-- `main.py` `_ai_code`: call the provider with the prompt as given; on
success `content.strip()`; on any exception an apology string embedding the
error (not a fenced block in this file). -/
def _ai_code (provider : String → Except String String) (text : String) : String :=
  match provider text with
  | Except.ok content => pyStrip content
  | Except.error e => "Ups, no pude generar el código: " ++ e

/-- `main.py` `webhook`. -/
def webhook (env : Env) (req : HttpRequest) : HttpResponse × List Eff :=
  if req.method ≠ "POST" then
    if req.debugArg = some "1" then
      match _get_sheet env with
      | Except.error e =>
        ({ body := "debug error: " ++ e, status := 500, contentType := none }, [])
      | Except.ok _ =>
        match env.appendW with
        | Except.error e =>
          ({ body := "debug error: " ++ e, status := 500, contentType := none }, [])
        | Except.ok _ =>
          ({ body := "debug wrote row", status := 200, contentType := none },
           [Eff.appendRow [env.now, "debug", "GET /?debug=1", "fila de test"]])
    else ({ body := "ok", status := 200, contentType := none }, [])
  else
    let body_orig := pyStrip (req.formBody.getD "")
    let t := pyLower body_orig
    let reply :=
      if t == "ping" || t == "/ping" then "pong"
      else if t == "help" || t == "/help" || t == "ayuda" || t == "/ayuda" then
        "Comandos: /ping, /help, /code <lenguaje> <instrucción>"
      else if pyStartswith t "/code" then
        _ai_code env.provider (pyOr (pyStrip (pyDrop body_orig 5)) "python ejemplo básico")
      else if body_orig == "" then
        "Hola! Recibí tu mensaje vacío. Probá enviarme algo de texto 🙂"
      else _ai_reply env.provider body_orig
    let sender := req.formFrom.getD "desconocido"
    ({ body := twiml (pyOr reply ""), status := 200,
       contentType := some "application/xml" },
     log_message env sender body_orig reply)

/-- The reply the router of `main.py` computes (the if-chain of `webhook`),
as a function of the provider and the request alone. -/
def routeReply (provider : String → Except String String) (req : HttpRequest) : String :=
  if pyLower (pyStrip (req.formBody.getD "")) == "ping"
     || pyLower (pyStrip (req.formBody.getD "")) == "/ping" then "pong"
  else if pyLower (pyStrip (req.formBody.getD "")) == "help"
     || pyLower (pyStrip (req.formBody.getD "")) == "/help"
     || pyLower (pyStrip (req.formBody.getD "")) == "ayuda"
     || pyLower (pyStrip (req.formBody.getD "")) == "/ayuda" then
    "Comandos: /ping, /help, /code <lenguaje> <instrucción>"
  else if pyStartswith (pyLower (pyStrip (req.formBody.getD ""))) "/code" then
    _ai_code provider
      (pyOr (pyStrip (pyDrop (pyStrip (req.formBody.getD "")) 5)) "python ejemplo básico")
  else if pyStrip (req.formBody.getD "") == "" then
    "Hola! Recibí tu mensaje vacío. Probá enviarme algo de texto 🙂"
  else _ai_reply provider (pyStrip (req.formBody.getD ""))

end MainPy

namespace Comentado

/-- `codigo_comentado.py` `_ai_reply`: on success `(content or "").strip()`;
on any exception a fixed apology string. -/
def _ai_reply (provider : String → Except String String) (text : String) : String :=
  match provider (pyOr text "(mensaje vacío)") with
  | Except.ok content => pyStrip (pyOr content "")
  | Except.error _ =>
    "No pude responder con IA ahora. Intenta de nuevo en unos segundos."

/-- `codigo_comentado.py` `_ai_code`: provider gets
`user_prompt or "python: imprimir Hola Mundo"`; on success
`(content or "").strip()`; on any exception a fixed fenced fallback block. -/
def _ai_code (provider : String → Except String String) (userPrompt : String) : String :=
  match provider (pyOr userPrompt "python: imprimir Hola Mundo") with
  | Except.ok content => pyStrip (pyOr content "")
  | Except.error _ =>
    "```txt\nNo pude generar el código ahora. Reintenta en unos segundos.\n```"

/-- `codigo_comentado.py` help text. -/
def helpText : String :=
  "Comandos:\n• /ping — prueba rápida\n• /code <lenguaje> <instrucción> — responde SOLO con código\n• /logtest — prueba de escritura en Sheets\n"

/-- `codigo_comentado.py` `webhook`.  Unlike `main.py` it has a `/logtest`
branch that logs inside the router and is skipped by the generic post-hoc
log step. -/
def webhook (env : Env) (req : HttpRequest) : HttpResponse × List Eff :=
  if req.method ≠ "POST" then
    if req.debugArg = some "1" then
      match _get_sheet env with
      | Except.error e =>
        ({ body := "debug error: " ++ e, status := 500, contentType := none }, [])
      | Except.ok _ =>
        match env.appendW with
        | Except.error e =>
          ({ body := "debug error: " ++ e, status := 500, contentType := none }, [])
        | Except.ok _ =>
          ({ body := "debug wrote row", status := 200, contentType := none },
           [Eff.appendRow [env.now, "debug", "GET ?debug=1", "fila de test"]])
    else ({ body := "ok", status := 200, contentType := none }, [])
  else
    let body_orig := pyStrip (req.formBody.getD "")
    let sender := req.formFrom.getD "desconocido"
    let t := pyLower body_orig
    let routed :=
      if t == "ping" || t == "/ping" then ("pong", ([] : List Eff))
      else if t == "help" || t == "/help" || t == "ayuda" || t == "/ayuda" then
        (helpText, [])
      else if t == "/logtest" then
        ("Log test ✅ (se intentó escribir en Sheets).",
         log_message env sender "[/logtest]" "OK log test")
      else if pyStartswith t "/code" then
        (_ai_code env.provider
          (pyOr (pyStrip (pyDrop body_orig 5)) "python: imprimir Hola Mundo"), [])
      else if body_orig == "" then
        ("Hola! Recibí tu mensaje vacío. Probá enviarme algo de texto 🙂", [])
      else (_ai_reply env.provider body_orig, [])
    let postEffs :=
      if t != "/logtest" then log_message env sender body_orig routed.1 else []
    ({ body := twiml (pyOr routed.1 ""), status := 200,
       contentType := some "application/xml" },
     routed.2 ++ postEffs)

/-- The reply the router of `codigo_comentado.py` computes, as a function of
the provider and the request alone. -/
def routeReply (provider : String → Except String String) (req : HttpRequest) : String :=
  if pyLower (pyStrip (req.formBody.getD "")) == "ping"
     || pyLower (pyStrip (req.formBody.getD "")) == "/ping" then "pong"
  else if pyLower (pyStrip (req.formBody.getD "")) == "help"
     || pyLower (pyStrip (req.formBody.getD "")) == "/help"
     || pyLower (pyStrip (req.formBody.getD "")) == "ayuda"
     || pyLower (pyStrip (req.formBody.getD "")) == "/ayuda" then helpText
  else if pyLower (pyStrip (req.formBody.getD "")) == "/logtest" then
    "Log test ✅ (se intentó escribir en Sheets)."
  else if pyStartswith (pyLower (pyStrip (req.formBody.getD ""))) "/code" then
    _ai_code provider
      (pyOr (pyStrip (pyDrop (pyStrip (req.formBody.getD "")) 5)) "python: imprimir Hola Mundo")
  else if pyStrip (req.formBody.getD "") == "" then
    "Hola! Recibí tu mensaje vacío. Probá enviarme algo de texto 🙂"
  else _ai_reply provider (pyStrip (req.formBody.getD ""))

/-- The log invocation the `/logtest` branch of the router performs from
inside `webhook` (empty for every other input). -/
def preEffs (env : Env) (req : HttpRequest) : List Eff :=
  if pyLower (pyStrip (req.formBody.getD "")) == "/logtest" then
    log_message env (req.formFrom.getD "desconocido") "[/logtest]" "OK log test"
  else []

/-- The generic post-hoc log step of `webhook` (skipped for `/logtest`). -/
def postEffs (env : Env) (req : HttpRequest) : List Eff :=
  if pyLower (pyStrip (req.formBody.getD "")) != "/logtest" then
    log_message env (req.formFrom.getD "desconocido") (pyStrip (req.formBody.getD ""))
      (routeReply env.provider req)
  else []

end Comentado

/-- A provider that echoes its input inside brackets (reveals exactly what
text a composer handed to the completion API). -/
def echoProvider : String → Except String String :=
  fun s => Except.ok ("[" ++ s ++ "]")

/-- A provider whose call always fails. -/
def failProvider : String → Except String String :=
  fun _ => Except.error "timeout"

/-- Environment with a healthy Sheets stack and the echo provider. -/
def okEnv : Env :=
  { sheetId := "SHEET1"
    adcF := fun _ => Except.ok "adc-cred"
    fileF := fun _ _ => Except.error "no keyfile"
    credsPath := "service_account.json"
    openW := Except.ok ()
    appendW := Except.ok ()
    provider := echoProvider
    now := "2025-01-01 10:00:00" }

/-- Same as `okEnv` but the spreadsheet id is missing. -/
def noSheetEnv : Env := { okEnv with sheetId := "" }

/-- Same as `okEnv` but the provider fails. -/
def failAiEnv : Env := { okEnv with provider := failProvider }

lemma beq_false_of_code_prefix (t s : String) (h : pyStartswith t "/code" = true)
    (hs : pyStartswith s "/code" = false) : (t == s) = false := by
  cases hb : t == s with
  | false => rfl
  | true =>
    have ht : t = s := eq_of_beq hb
    subst ht
    rw [hs] at h
    exact Bool.noConfusion h

lemma log_message_shape (env : Env) (s b r : String) :
    log_message env s b r = [Eff.logCall s b r] ∨
    log_message env s b r =
      [Eff.logCall s b r,
       Eff.appendRow [env.now, pyOr s "-", pyOr b "", pyOr r ""]] := by
  unfold log_message
  cases _get_sheet env with
  | error e => exact Or.inl rfl
  | ok u =>
    cases env.appendW with
    | error e2 => exact Or.inl rfl
    | ok u2 => exact Or.inr rfl

lemma countLog_log_message (env : Env) (s b r : String) :
    countLog (log_message env s b r) = 1 := by
  rcases log_message_shape env s b r with h | h <;> rw [h] <;> rfl

lemma head_log_message (env : Env) (s b r : String) :
    (log_message env s b r).head? = some (Eff.logCall s b r) := by
  rcases log_message_shape env s b r with h | h <;> rw [h] <;> rfl

lemma log_message_ok (env : Env) (s b r : String)
    (h1 : _get_sheet env = Except.ok ()) (h2 : env.appendW = Except.ok ()) :
    log_message env s b r =
      [Eff.logCall s b r,
       Eff.appendRow [env.now, pyOr s "-", pyOr b "", pyOr r ""]] := by
  unfold log_message
  rw [h1, h2]

/-- Claim C8: the credential resolver first attempts ADC with the fixed scope
pair `SCOPES`; only on failure of that attempt does it try the keyfile with
the same scopes; an ADC success never touches the keyfile (its attempt trace
is ADC alone and the result ignores the file resolver); the resolution errors
exactly when both attempts fail. -/
theorem creds_adc_first_then_file (adcF : List String → Except String String)
    (fileF : String → List String → Except String String) (path : String) :
    (∀ c, adcF SCOPES = Except.ok c →
        _get_google_creds adcF fileF path =
          (Except.ok c, [CredAttempt.adcAttempt SCOPES]))
  ∧ (∀ e, adcF SCOPES = Except.error e →
        _get_google_creds adcF fileF path =
          (fileF path SCOPES,
           [CredAttempt.adcAttempt SCOPES, CredAttempt.fileAttempt path SCOPES]))
  ∧ isErr (_get_google_creds adcF fileF path).1 =
      (isErr (adcF SCOPES) && isErr (fileF path SCOPES)) := by
  refine ⟨?_, ?_, ?_⟩
  · intro c h
    unfold _get_google_creds
    rw [h]
  · intro e h
    unfold _get_google_creds
    rw [h]
    cases fileF path SCOPES with
    | ok c => rfl
    | error e2 => rfl
  · unfold _get_google_creds
    cases adcF SCOPES with
    | ok c => rfl
    | error e =>
      cases fileF path SCOPES with
      | ok c => rfl
      | error e2 => rfl

theorem creds_adc_first_then_file_witness :
    _get_google_creds (fun _ => Except.ok "tok") (fun _ _ => Except.error "nf") "p"
      = (Except.ok "tok", [CredAttempt.adcAttempt SCOPES]) :=
  (creds_adc_first_then_file (fun _ => Except.ok "tok")
    (fun _ _ => Except.error "nf") "p").1 "tok" rfl

/-- Claim C1 counterexample: in `main.py` the code composer's fallback on a
provider failure is a plain apology string embedding the error text — not a
fenced code block, contrary to the claim. -/
theorem main_code_fallback_unfenced :
    MainPy._ai_code failProvider "bash: eco hola"
      = "Ups, no pude generar el código: timeout"
  ∧ pyStartswith (MainPy._ai_code failProvider "bash: eco hola") "```" = false :=
  ⟨rfl, by decide⟩

/-- Claim C1 (amended): no composer ever raises — every provider failure is
converted to a fallback reply.  In `codigo_comentado.py` the conversational
fallback is a fixed apology string and the code-only fallback is a fixed
fenced block; in `main.py` both fallbacks are apology strings embedding the
error text, and the code-only one is not fenced. -/
theorem composer_fallback_behavior (provider : String → Except String String)
    (text e : String) :
    (provider (pyOr text "(mensaje vacío)") = Except.error e →
      MainPy._ai_reply provider text = "Ups, hubo un error consultando a IA: " ++ e)
  ∧ (provider text = Except.error e →
      MainPy._ai_code provider text = "Ups, no pude generar el código: " ++ e)
  ∧ (provider (pyOr text "(mensaje vacío)") = Except.error e →
      Comentado._ai_reply provider text =
        "No pude responder con IA ahora. Intenta de nuevo en unos segundos.")
  ∧ (provider (pyOr text "python: imprimir Hola Mundo") = Except.error e →
      Comentado._ai_code provider text =
        "```txt\nNo pude generar el código ahora. Reintenta en unos segundos.\n```"
      ∧ pyStartswith (Comentado._ai_code provider text) "```" = true) := by
  refine ⟨?_, ?_, ?_, ?_⟩ <;> intro h
  · simp [MainPy._ai_reply, h]
  · simp [MainPy._ai_code, h]
  · simp [Comentado._ai_reply, h]
  · have hc : Comentado._ai_code provider text =
        "```txt\nNo pude generar el código ahora. Reintenta en unos segundos.\n```" := by
      simp [Comentado._ai_code, h]
    exact ⟨hc, by rw [hc]; decide⟩

theorem composer_fallback_behavior_witness :
    MainPy._ai_code failProvider "tarea" = "Ups, no pude generar el código: timeout" :=
  (composer_fallback_behavior failProvider "tarea" "timeout").2.1 rfl

lemma pyOr_empty (s : String) : pyOr s "" = s := by
  unfold pyOr
  by_cases h : s = ""
  · rw [if_pos h, h]
  · rw [if_neg h]

lemma beq_ne_of_beq (t a b : String) (h : (t == a) = true)
    (hne : (a == b) = false) : (t == b) = false := by
  have ht : t = a := eq_of_beq h
  subst ht
  exact hne

lemma mainPy_webhook_post (env : Env) (req : HttpRequest) (hm : req.method = "POST") :
    MainPy.webhook env req =
      ({ body := twiml (pyOr (MainPy.routeReply env.provider req) ""), status := 200,
         contentType := some "application/xml" },
       log_message env (req.formFrom.getD "desconocido")
         (pyStrip (req.formBody.getD "")) (MainPy.routeReply env.provider req)) := by
  have h2 : ¬ (req.method ≠ "POST") := by simp [hm]
  unfold MainPy.webhook
  rw [if_neg h2]
  rfl

lemma comentado_webhook_post (env : Env) (req : HttpRequest) (hm : req.method = "POST") :
    Comentado.webhook env req =
      ({ body := twiml (pyOr (Comentado.routeReply env.provider req) ""), status := 200,
         contentType := some "application/xml" },
       Comentado.preEffs env req ++ Comentado.postEffs env req) := by
  have h2 : ¬ (req.method ≠ "POST") := by simp [hm]
  unfold Comentado.webhook Comentado.routeReply Comentado.preEffs Comentado.postEffs
  rw [if_neg h2]
  cases h3 : (pyLower (pyStrip (req.formBody.getD "")) == "/logtest") with
  | true =>
    have ht := eq_of_beq h3
    simp only [ht, h3]
    have e1 : (("/logtest" : String) == "ping" || ("/logtest" : String) == "/ping") = false := by
      decide
    have e2 : (("/logtest" : String) == "help" || ("/logtest" : String) == "/help"
        || ("/logtest" : String) == "ayuda" || ("/logtest" : String) == "/ayuda") = false := by
      decide
    have e3 : (("/logtest" : String) != "/logtest") = false := by decide
    simp [e1, e2, e3]
  | false =>
    simp only [h3, bne, Bool.not_false, if_true, if_false, Bool.false_eq_true,
      List.nil_append]
    simp [Comentado.routeReply, h3, apply_ite Prod.fst, apply_ite Prod.snd, ite_self]

lemma mainPy_routeReply_ping (p : String → Except String String) (req : HttpRequest)
    (h : (pyLower (pyStrip (req.formBody.getD "")) == "ping"
          || pyLower (pyStrip (req.formBody.getD "")) == "/ping") = true) :
    MainPy.routeReply p req = "pong" := by
  unfold MainPy.routeReply
  rw [if_pos h]

lemma mainPy_routeReply_code (p : String → Except String String) (req : HttpRequest)
    (h : pyStartswith (pyLower (pyStrip (req.formBody.getD ""))) "/code" = true) :
    MainPy.routeReply p req =
      MainPy._ai_code p
        (pyOr (pyStrip (pyDrop (pyStrip (req.formBody.getD "")) 5)) "python ejemplo básico") := by
  have n1 := beq_false_of_code_prefix _ "ping" h (by decide)
  have n2 := beq_false_of_code_prefix _ "/ping" h (by decide)
  have n3 := beq_false_of_code_prefix _ "help" h (by decide)
  have n4 := beq_false_of_code_prefix _ "/help" h (by decide)
  have n5 := beq_false_of_code_prefix _ "ayuda" h (by decide)
  have n6 := beq_false_of_code_prefix _ "/ayuda" h (by decide)
  have hc1 : ¬ ((pyLower (pyStrip (req.formBody.getD "")) == "ping"
      || pyLower (pyStrip (req.formBody.getD "")) == "/ping") = true) := by
    rw [n1, n2]; decide
  have hc2 : ¬ ((pyLower (pyStrip (req.formBody.getD "")) == "help"
      || pyLower (pyStrip (req.formBody.getD "")) == "/help"
      || pyLower (pyStrip (req.formBody.getD "")) == "ayuda"
      || pyLower (pyStrip (req.formBody.getD "")) == "/ayuda") = true) := by
    rw [n3, n4, n5, n6]; decide
  unfold MainPy.routeReply
  rw [if_neg hc1, if_neg hc2, if_pos h]

lemma mainPy_routeReply_empty (p : String → Except String String) (req : HttpRequest)
    (h : pyStrip (req.formBody.getD "") = "") :
    MainPy.routeReply p req =
      "Hola! Recibí tu mensaje vacío. Probá enviarme algo de texto 🙂" := by
  unfold MainPy.routeReply
  rw [h]
  rw [if_neg (by decide), if_neg (by decide), if_neg (by decide), if_pos (by decide)]

lemma mainPy_routeReply_else (p : String → Except String String) (req : HttpRequest)
    (h1 : (pyLower (pyStrip (req.formBody.getD "")) == "ping"
          || pyLower (pyStrip (req.formBody.getD "")) == "/ping") = false)
    (h2 : (pyLower (pyStrip (req.formBody.getD "")) == "help"
          || pyLower (pyStrip (req.formBody.getD "")) == "/help"
          || pyLower (pyStrip (req.formBody.getD "")) == "ayuda"
          || pyLower (pyStrip (req.formBody.getD "")) == "/ayuda") = false)
    (h4 : pyStartswith (pyLower (pyStrip (req.formBody.getD ""))) "/code" = false)
    (h5 : (pyStrip (req.formBody.getD "") == "") = false) :
    MainPy.routeReply p req = MainPy._ai_reply p (pyStrip (req.formBody.getD "")) := by
  unfold MainPy.routeReply
  rw [if_neg (by simp [h1]), if_neg (by simp [h2]), if_neg (by simp [h4]),
      if_neg (by simp [h5])]

lemma comentado_routeReply_ping (p : String → Except String String) (req : HttpRequest)
    (h : (pyLower (pyStrip (req.formBody.getD "")) == "ping"
          || pyLower (pyStrip (req.formBody.getD "")) == "/ping") = true) :
    Comentado.routeReply p req = "pong" := by
  unfold Comentado.routeReply
  rw [if_pos h]

lemma comentado_routeReply_logtest (p : String → Except String String) (req : HttpRequest)
    (h : (pyLower (pyStrip (req.formBody.getD "")) == "/logtest") = true) :
    Comentado.routeReply p req = "Log test ✅ (se intentó escribir en Sheets)." := by
  have n1 := beq_ne_of_beq _ "/logtest" "ping" h (by decide)
  have n2 := beq_ne_of_beq _ "/logtest" "/ping" h (by decide)
  have n3 := beq_ne_of_beq _ "/logtest" "help" h (by decide)
  have n4 := beq_ne_of_beq _ "/logtest" "/help" h (by decide)
  have n5 := beq_ne_of_beq _ "/logtest" "ayuda" h (by decide)
  have n6 := beq_ne_of_beq _ "/logtest" "/ayuda" h (by decide)
  unfold Comentado.routeReply
  rw [if_neg (by rw [n1, n2]; decide), if_neg (by rw [n3, n4, n5, n6]; decide),
      if_pos h]

lemma comentado_routeReply_code (p : String → Except String String) (req : HttpRequest)
    (h : pyStartswith (pyLower (pyStrip (req.formBody.getD ""))) "/code" = true) :
    Comentado.routeReply p req =
      Comentado._ai_code p
        (pyOr (pyStrip (pyDrop (pyStrip (req.formBody.getD "")) 5))
          "python: imprimir Hola Mundo") := by
  have n1 := beq_false_of_code_prefix _ "ping" h (by decide)
  have n2 := beq_false_of_code_prefix _ "/ping" h (by decide)
  have n3 := beq_false_of_code_prefix _ "help" h (by decide)
  have n4 := beq_false_of_code_prefix _ "/help" h (by decide)
  have n5 := beq_false_of_code_prefix _ "ayuda" h (by decide)
  have n6 := beq_false_of_code_prefix _ "/ayuda" h (by decide)
  have n7 := beq_false_of_code_prefix _ "/logtest" h (by decide)
  unfold Comentado.routeReply
  rw [if_neg (by rw [n1, n2]; decide), if_neg (by rw [n3, n4, n5, n6]; decide),
      if_neg (by simp [n7]), if_pos h]

lemma comentado_routeReply_empty (p : String → Except String String) (req : HttpRequest)
    (h : pyStrip (req.formBody.getD "") = "") :
    Comentado.routeReply p req =
      "Hola! Recibí tu mensaje vacío. Probá enviarme algo de texto 🙂" := by
  unfold Comentado.routeReply
  rw [h]
  rw [if_neg (by decide), if_neg (by decide), if_neg (by decide), if_neg (by decide),
      if_pos (by decide)]

lemma comentado_routeReply_else (p : String → Except String String) (req : HttpRequest)
    (h1 : (pyLower (pyStrip (req.formBody.getD "")) == "ping"
          || pyLower (pyStrip (req.formBody.getD "")) == "/ping") = false)
    (h2 : (pyLower (pyStrip (req.formBody.getD "")) == "help"
          || pyLower (pyStrip (req.formBody.getD "")) == "/help"
          || pyLower (pyStrip (req.formBody.getD "")) == "ayuda"
          || pyLower (pyStrip (req.formBody.getD "")) == "/ayuda") = false)
    (h3 : (pyLower (pyStrip (req.formBody.getD "")) == "/logtest") = false)
    (h4 : pyStartswith (pyLower (pyStrip (req.formBody.getD ""))) "/code" = false)
    (h5 : (pyStrip (req.formBody.getD "") == "") = false) :
    Comentado.routeReply p req = Comentado._ai_reply p (pyStrip (req.formBody.getD "")) := by
  unfold Comentado.routeReply
  rw [if_neg (by simp [h1]), if_neg (by simp [h2]), if_neg (by simp [h3]),
      if_neg (by simp [h4]), if_neg (by simp [h5])]

lemma comentado_preEffs_logtest (env : Env) (req : HttpRequest)
    (h : (pyLower (pyStrip (req.formBody.getD "")) == "/logtest") = true) :
    Comentado.preEffs env req =
      log_message env (req.formFrom.getD "desconocido") "[/logtest]" "OK log test" := by
  unfold Comentado.preEffs
  rw [if_pos h]

lemma comentado_preEffs_ne (env : Env) (req : HttpRequest)
    (h : (pyLower (pyStrip (req.formBody.getD "")) == "/logtest") = false) :
    Comentado.preEffs env req = [] := by
  unfold Comentado.preEffs
  rw [if_neg (by simp [h])]

lemma comentado_postEffs_logtest (env : Env) (req : HttpRequest)
    (h : (pyLower (pyStrip (req.formBody.getD "")) == "/logtest") = true) :
    Comentado.postEffs env req = [] := by
  have hb : (pyLower (pyStrip (req.formBody.getD "")) != "/logtest") = false := by
    rw [bne, h]; rfl
  unfold Comentado.postEffs
  rw [if_neg (by simp [hb])]

lemma comentado_postEffs_ne (env : Env) (req : HttpRequest)
    (h : (pyLower (pyStrip (req.formBody.getD "")) == "/logtest") = false) :
    Comentado.postEffs env req =
      log_message env (req.formFrom.getD "desconocido") (pyStrip (req.formBody.getD ""))
        (Comentado.routeReply env.provider req) := by
  have hb : (pyLower (pyStrip (req.formBody.getD "")) != "/logtest") = true := by
    rw [bne, h]; rfl
  unfold Comentado.postEffs
  rw [if_pos hb]

/-- Claim C2: for every POST request — whatever the spreadsheet stack does,
including a missing spreadsheet id or failing credentials — the handler
returns status 200 with the XML envelope wrapping the router's reply, and the
response is identical to the one produced under any other sheets
configuration with the same provider: a logging failure never prevents or
degrades the reply. -/
theorem post_reply_never_blocked (env1 env2 : Env) (req : HttpRequest)
    (hm : req.method = "POST") (hp : env1.provider = env2.provider) :
    (MainPy.webhook env1 req).1.status = 200
  ∧ (MainPy.webhook env1 req).1.contentType = some "application/xml"
  ∧ (MainPy.webhook env1 req).1.body = twiml (pyOr (MainPy.routeReply env1.provider req) "")
  ∧ (MainPy.webhook env1 req).1 = (MainPy.webhook env2 req).1
  ∧ (Comentado.webhook env1 req).1.status = 200
  ∧ (Comentado.webhook env1 req).1.contentType = some "application/xml"
  ∧ (Comentado.webhook env1 req).1.body =
      twiml (pyOr (Comentado.routeReply env1.provider req) "")
  ∧ (Comentado.webhook env1 req).1 = (Comentado.webhook env2 req).1 := by
  rw [mainPy_webhook_post env1 req hm, mainPy_webhook_post env2 req hm,
      comentado_webhook_post env1 req hm, comentado_webhook_post env2 req hm, hp]
  exact ⟨rfl, rfl, rfl, rfl, rfl, rfl, rfl, rfl⟩

theorem post_reply_never_blocked_witness :
    (MainPy.webhook okEnv
        { method := "POST", debugArg := none, formBody := some "hola", formFrom := none }).1 =
      (MainPy.webhook noSheetEnv
        { method := "POST", debugArg := none, formBody := some "hola", formFrom := none }).1
  ∧ (Comentado.webhook noSheetEnv
        { method := "POST", debugArg := none, formBody := some "hola", formFrom := none }).1.status = 200 := by
  have h := post_reply_never_blocked okEnv noSheetEnv
    { method := "POST", debugArg := none, formBody := some "hola", formFrom := none } rfl rfl
  refine ⟨h.2.2.2.1, ?_⟩
  rw [← h.2.2.2.2.2.2.2]
  exact h.2.2.2.2.1

/-- Claim C7: for every POST whose normalized body is `"ping"` or `"/ping"`,
both implementations reply exactly `"pong"` with a 200 XML response, invoke
the logger exactly once with the original body, and — when the store is
reachable — append exactly one audit row `[timestamp, sender, body, "pong"]`. -/
theorem ping_pong_flow (env : Env) (req : HttpRequest) (hm : req.method = "POST")
    (h : (pyLower (pyStrip (req.formBody.getD "")) == "ping"
          || pyLower (pyStrip (req.formBody.getD "")) == "/ping") = true) :
    MainPy.webhook env req =
      ({ body := twiml "pong", status := 200, contentType := some "application/xml" },
       log_message env (req.formFrom.getD "desconocido")
         (pyStrip (req.formBody.getD "")) "pong")
  ∧ Comentado.webhook env req =
      ({ body := twiml "pong", status := 200, contentType := some "application/xml" },
       log_message env (req.formFrom.getD "desconocido")
         (pyStrip (req.formBody.getD "")) "pong")
  ∧ countLog (MainPy.webhook env req).2 = 1
  ∧ countLog (Comentado.webhook env req).2 = 1
  ∧ (_get_sheet env = Except.ok () → env.appendW = Except.ok () →
      (MainPy.webhook env req).2 =
        [Eff.logCall (req.formFrom.getD "desconocido")
           (pyStrip (req.formBody.getD "")) "pong",
         Eff.appendRow [env.now, pyOr (req.formFrom.getD "desconocido") "-",
           pyOr (pyStrip (req.formBody.getD "")) "", "pong"]]) := by
  have hor : (pyLower (pyStrip (req.formBody.getD "")) == "ping") = true
      ∨ (pyLower (pyStrip (req.formBody.getD "")) == "/ping") = true := by
    cases ha : pyLower (pyStrip (req.formBody.getD "")) == "ping" with
    | true => exact Or.inl rfl
    | false =>
      rw [ha] at h
      exact Or.inr (by simpa using h)
  have hlt : (pyLower (pyStrip (req.formBody.getD "")) == "/logtest") = false := by
    rcases hor with hp | hp
    · exact beq_ne_of_beq _ "ping" _ hp (by decide)
    · exact beq_ne_of_beq _ "/ping" _ hp (by decide)
  have hM := mainPy_webhook_post env req hm
  have hC := comentado_webhook_post env req hm
  have hr1 := mainPy_routeReply_ping env.provider req h
  have hr2 := comentado_routeReply_ping env.provider req h
  refine ⟨?_, ?_, ?_, ?_, ?_⟩
  · rw [hM, hr1, pyOr_empty]
  · rw [hC, hr2, comentado_preEffs_ne env req hlt, comentado_postEffs_ne env req hlt,
        hr2, List.nil_append, pyOr_empty]
  · rw [hM]
    exact countLog_log_message env _ _ _
  · rw [hC, comentado_preEffs_ne env req hlt, comentado_postEffs_ne env req hlt,
        List.nil_append]
    exact countLog_log_message env _ _ _
  · intro hs ha
    rw [hM, hr1, log_message_ok env _ _ _ hs ha, pyOr_empty]

theorem ping_pong_flow_witness :
    (MainPy.webhook okEnv
        { method := "POST", debugArg := none, formBody := some "/ping", formFrom := some "+1555" }).2 =
      [Eff.logCall "+1555" "/ping" "pong",
       Eff.appendRow ["2025-01-01 10:00:00", "+1555", "/ping", "pong"]]
  ∧ (MainPy.webhook okEnv
        { method := "POST", debugArg := none, formBody := some "/ping", formFrom := some "+1555" }).1.body =
      twiml "pong" := by
  have h := ping_pong_flow okEnv
    { method := "POST", debugArg := none, formBody := some "/ping", formFrom := some "+1555" }
    rfl (by decide)
  constructor
  · rw [h.2.2.2.2 rfl rfl]
    decide
  · rw [h.1]

/-- Claim C6: for every POST whose trimmed body is empty, both
implementations reply with the fixed empty-message prompt, still invoke the
logger exactly once with an empty body, and when the `From` field is absent
the logged sender defaults to `"desconocido"`. -/
theorem empty_body_flow (env : Env) (req : HttpRequest) (hm : req.method = "POST")
    (h : pyStrip (req.formBody.getD "") = "") :
    (MainPy.webhook env req).1.body =
      twiml "Hola! Recibí tu mensaje vacío. Probá enviarme algo de texto 🙂"
  ∧ (MainPy.webhook env req).2.head? =
      some (Eff.logCall (req.formFrom.getD "desconocido") ""
        "Hola! Recibí tu mensaje vacío. Probá enviarme algo de texto 🙂")
  ∧ countLog (MainPy.webhook env req).2 = 1
  ∧ (Comentado.webhook env req).1.body =
      twiml "Hola! Recibí tu mensaje vacío. Probá enviarme algo de texto 🙂"
  ∧ (Comentado.webhook env req).2.head? =
      some (Eff.logCall (req.formFrom.getD "desconocido") ""
        "Hola! Recibí tu mensaje vacío. Probá enviarme algo de texto 🙂")
  ∧ countLog (Comentado.webhook env req).2 = 1
  ∧ (req.formFrom = none →
      (MainPy.webhook env req).2.head? =
        some (Eff.logCall "desconocido" ""
          "Hola! Recibí tu mensaje vacío. Probá enviarme algo de texto 🙂")) := by
  have hlt : (pyLower (pyStrip (req.formBody.getD "")) == "/logtest") = false := by
    rw [h]; decide
  have hM := mainPy_webhook_post env req hm
  have hC := comentado_webhook_post env req hm
  have hrM := mainPy_routeReply_empty env.provider req h
  have hrC := comentado_routeReply_empty env.provider req h
  have pre := comentado_preEffs_ne env req hlt
  have post := comentado_postEffs_ne env req hlt
  refine ⟨?_, ?_, ?_, ?_, ?_, ?_, ?_⟩
  · rw [hM, hrM, pyOr_empty]
  · rw [hM, hrM, h]
    exact head_log_message env _ _ _
  · rw [hM]
    exact countLog_log_message env _ _ _
  · rw [hC, hrC, pyOr_empty]
  · rw [hC, pre, post, List.nil_append, hrC, h]
    exact head_log_message env _ _ _
  · rw [hC, pre, post, List.nil_append]
    exact countLog_log_message env _ _ _
  · intro hf
    rw [hM, hrM, h, hf]
    exact head_log_message env _ _ _

theorem empty_body_flow_witness :
    (MainPy.webhook okEnv
        { method := "POST", debugArg := none, formBody := some "   ", formFrom := none }).2.head? =
      some (Eff.logCall "desconocido" ""
        "Hola! Recibí tu mensaje vacío. Probá enviarme algo de texto 🙂")
  ∧ (Comentado.webhook okEnv
        { method := "POST", debugArg := none, formBody := some "   ", formFrom := none }).1.body =
      twiml "Hola! Recibí tu mensaje vacío. Probá enviarme algo de texto 🙂" := by
  have h := empty_body_flow okEnv
    { method := "POST", debugArg := none, formBody := some "   ", formFrom := none }
    rfl (by decide)
  exact ⟨h.2.2.2.2.2.2 rfl, h.2.2.2.1⟩

/-- Claim C3 counterexample: `main.py` has no `/logtest` command.  A POST
with body `"/logtest"` is routed to the conversational composer (here an
echo provider shows the composer was called with the raw body), and the
handler logs the real body with the composer reply — not the synthetic
marker `"[/logtest]"` with the fixed reply the claim describes. -/
theorem main_logtest_not_special :
    (MainPy.webhook okEnv
        { method := "POST", debugArg := none, formBody := some "/logtest", formFrom := some "+1555" }).2 =
      [Eff.logCall "+1555" "/logtest" "[/logtest]",
       Eff.appendRow ["2025-01-01 10:00:00", "+1555", "/logtest", "[/logtest]"]]
  ∧ ("[/logtest]" : String) ≠ "Log test ✅ (se intentó escribir en Sheets)."
  ∧ ("/logtest" : String) ≠ "[/logtest]" := by
  refine ⟨by decide, by decide, by decide⟩

/-- Claim C3 (amended): in `codigo_comentado.py`, a POST whose normalized
body is `"/logtest"` makes the router invoke the logger once, with the
synthetic body marker `"[/logtest]"` and the fixed logged-reply cell
`"OK log test"`; the reply returned to the caller is the distinct fixed
confirmation `"Log test ✅ (se intentó escribir en Sheets)."`, and the
handler performs no second log call — exactly one invocation per request.
`main.py` has no `/logtest` branch: the body falls through to the
conversational composer, and exactly one generic log call (with the real
body) occurs. -/
theorem logtest_single_append (env : Env) (req : HttpRequest) (hm : req.method = "POST")
    (h : (pyLower (pyStrip (req.formBody.getD "")) == "/logtest") = true) :
    (Comentado.webhook env req).1.body = twiml "Log test ✅ (se intentó escribir en Sheets)."
  ∧ (Comentado.webhook env req).2 =
      log_message env (req.formFrom.getD "desconocido") "[/logtest]" "OK log test"
  ∧ (Comentado.webhook env req).2.head? =
      some (Eff.logCall (req.formFrom.getD "desconocido") "[/logtest]" "OK log test")
  ∧ countLog (Comentado.webhook env req).2 = 1
  ∧ countLog (MainPy.webhook env req).2 = 1 := by
  have hC := comentado_webhook_post env req hm
  have hM := mainPy_webhook_post env req hm
  have hrC := comentado_routeReply_logtest env.provider req h
  have pre := comentado_preEffs_logtest env req h
  have post := comentado_postEffs_logtest env req h
  refine ⟨?_, ?_, ?_, ?_, ?_⟩
  · rw [hC, hrC, pyOr_empty]
  · rw [hC, pre, post, List.append_nil]
  · rw [hC, pre, post, List.append_nil]
    exact head_log_message env _ _ _
  · rw [hC, pre, post, List.append_nil]
    exact countLog_log_message env _ _ _
  · rw [hM]
    exact countLog_log_message env _ _ _

theorem logtest_single_append_witness :
    (Comentado.webhook okEnv
        { method := "POST", debugArg := none, formBody := some "/logtest", formFrom := some "+1555" }).2 =
      [Eff.logCall "+1555" "[/logtest]" "OK log test",
       Eff.appendRow ["2025-01-01 10:00:00", "+1555", "[/logtest]", "OK log test"]] := by
  have h := logtest_single_append okEnv
    { method := "POST", debugArg := none, formBody := some "/logtest", formFrom := some "+1555" }
    rfl (by decide)
  rw [h.2.1]
  decide

/-- Claim C9: for every non-POST request with `debug=1`, a successful
synthetic append yields 200 with confirmation text and one appended row; any
failure (sheet unreachable or append failing) yields 500 with an
error-description body and no appended row; a non-POST request without the
debug flag yields 200 with body `"ok"` — in both implementations. -/
theorem debug_get_paths (env : Env) (req : HttpRequest) (hm : req.method ≠ "POST") :
    (req.debugArg ≠ some "1" →
      MainPy.webhook env req = ({ body := "ok", status := 200, contentType := none }, [])
      ∧ Comentado.webhook env req = ({ body := "ok", status := 200, contentType := none }, []))
  ∧ (req.debugArg = some "1" →
      (_get_sheet env = Except.ok () → env.appendW = Except.ok () →
        MainPy.webhook env req =
          ({ body := "debug wrote row", status := 200, contentType := none },
           [Eff.appendRow [env.now, "debug", "GET /?debug=1", "fila de test"]])
        ∧ Comentado.webhook env req =
          ({ body := "debug wrote row", status := 200, contentType := none },
           [Eff.appendRow [env.now, "debug", "GET ?debug=1", "fila de test"]]))
      ∧ (∀ e, _get_sheet env = Except.error e →
          MainPy.webhook env req =
            ({ body := "debug error: " ++ e, status := 500, contentType := none }, [])
          ∧ Comentado.webhook env req =
            ({ body := "debug error: " ++ e, status := 500, contentType := none }, []))
      ∧ (∀ e, _get_sheet env = Except.ok () → env.appendW = Except.error e →
          MainPy.webhook env req =
            ({ body := "debug error: " ++ e, status := 500, contentType := none }, [])
          ∧ Comentado.webhook env req =
            ({ body := "debug error: " ++ e, status := 500, contentType := none }, []))) := by
  refine ⟨fun hd => ⟨?_, ?_⟩,
    fun hd => ⟨fun hs ha => ⟨?_, ?_⟩, fun e hs => ⟨?_, ?_⟩, fun e hs ha => ⟨?_, ?_⟩⟩⟩
  · unfold MainPy.webhook
    rw [if_pos hm, if_neg hd]
  · unfold Comentado.webhook
    rw [if_pos hm, if_neg hd]
  · unfold MainPy.webhook
    rw [if_pos hm, if_pos hd, hs, ha]
  · unfold Comentado.webhook
    rw [if_pos hm, if_pos hd, hs, ha]
  · unfold MainPy.webhook
    rw [if_pos hm, if_pos hd, hs]
  · unfold Comentado.webhook
    rw [if_pos hm, if_pos hd, hs]
  · unfold MainPy.webhook
    rw [if_pos hm, if_pos hd, hs, ha]
  · unfold Comentado.webhook
    rw [if_pos hm, if_pos hd, hs, ha]

theorem debug_get_paths_witness :
    MainPy.webhook okEnv
        { method := "GET", debugArg := some "1", formBody := none, formFrom := none } =
      ({ body := "debug wrote row", status := 200, contentType := none },
       [Eff.appendRow ["2025-01-01 10:00:00", "debug", "GET /?debug=1", "fila de test"]]) := by
  have h := (debug_get_paths okEnv
    { method := "GET", debugArg := some "1", formBody := none, formFrom := none }
    (by decide)).2 rfl
  exact (h.1 rfl rfl).1

/-- Claim C4 counterexample: in `main.py` the default prompt for a bare
`/code` is `"python ejemplo básico"`, not `"python: imprimir Hola Mundo"`.
With an echo provider the reply reveals exactly what the composer received. -/
theorem main_code_default_differs :
    (MainPy.webhook okEnv
        { method := "POST", debugArg := none, formBody := some "/code", formFrom := some "+1" }).1.body =
      twiml "[python ejemplo básico]"
  ∧ ("python ejemplo básico" : String) ≠ "python: imprimir Hola Mundo" := by
  refine ⟨by decide, by decide⟩

/-- Claim C4 (amended): for every input whose normalized form starts with
`"/code"`, both routers strip exactly the 5-character prefix from the
original-case body and trim the remainder before passing it to the code
composer; when the remainder is empty, the composer in
`codigo_comentado.py` receives the default `"python: imprimir Hola Mundo"`,
while in `main.py` it receives `"python ejemplo básico"`. -/
theorem code_prefix_strip_defaults (env : Env) (req : HttpRequest)
    (hm : req.method = "POST")
    (h : pyStartswith (pyLower (pyStrip (req.formBody.getD ""))) "/code" = true) :
    (MainPy.webhook env req).1.body =
      twiml (pyOr (MainPy._ai_code env.provider
        (pyOr (pyStrip (pyDrop (pyStrip (req.formBody.getD "")) 5))
          "python ejemplo básico")) "")
  ∧ (Comentado.webhook env req).1.body =
      twiml (pyOr (Comentado._ai_code env.provider
        (pyOr (pyStrip (pyDrop (pyStrip (req.formBody.getD "")) 5))
          "python: imprimir Hola Mundo")) "") := by
  have hM := mainPy_webhook_post env req hm
  have hC := comentado_webhook_post env req hm
  have hrM := mainPy_routeReply_code env.provider req h
  have hrC := comentado_routeReply_code env.provider req h
  exact ⟨by rw [hM, hrM], by rw [hC, hrC]⟩

theorem code_prefix_strip_defaults_witness :
    (Comentado.webhook okEnv
        { method := "POST", debugArg := none, formBody := some " /CODE  ", formFrom := some "+1" }).1.body =
      twiml "[python: imprimir Hola Mundo]" := by
  have h := (code_prefix_strip_defaults okEnv
    { method := "POST", debugArg := none, formBody := some " /CODE  ", formFrom := some "+1" }
    rfl (by decide)).2
  rw [h]
  decide

/-- Claim C5 counterexample: the body `" Hola  "` is trimmed before logging
and before reaching the composer — the audit row records `"Hola"`, not the
original whitespace-carrying body, so the original whitespace is not
preserved. -/
theorem audit_body_whitespace_lost :
    (MainPy.webhook okEnv
        { method := "POST", debugArg := none, formBody := some " Hola  ", formFrom := some "+1" }).2.head? =
      some (Eff.logCall "+1" "Hola" "[Hola]")
  ∧ ("Hola" : String) ≠ " Hola  " := by
  refine ⟨by decide, by decide⟩

/-- Claim C5 (amended): lowercasing is used only for command classification —
the original casing of the body is preserved for the audit row and for the
composer input — but the body is trimmed once up front, so leading/trailing
whitespace is not preserved: for every catch-all input, both implementations
log and compose over the trimmed, original-case body. -/
theorem trim_upfront_casing_preserved (env : Env) (req : HttpRequest)
    (hm : req.method = "POST")
    (h1 : (pyLower (pyStrip (req.formBody.getD "")) == "ping"
          || pyLower (pyStrip (req.formBody.getD "")) == "/ping") = false)
    (h2 : (pyLower (pyStrip (req.formBody.getD "")) == "help"
          || pyLower (pyStrip (req.formBody.getD "")) == "/help"
          || pyLower (pyStrip (req.formBody.getD "")) == "ayuda"
          || pyLower (pyStrip (req.formBody.getD "")) == "/ayuda") = false)
    (h3 : (pyLower (pyStrip (req.formBody.getD "")) == "/logtest") = false)
    (h4 : pyStartswith (pyLower (pyStrip (req.formBody.getD ""))) "/code" = false)
    (h5 : (pyStrip (req.formBody.getD "") == "") = false) :
    (MainPy.webhook env req).2.head? =
      some (Eff.logCall (req.formFrom.getD "desconocido") (pyStrip (req.formBody.getD ""))
        (MainPy._ai_reply env.provider (pyStrip (req.formBody.getD ""))))
  ∧ (Comentado.webhook env req).2.head? =
      some (Eff.logCall (req.formFrom.getD "desconocido") (pyStrip (req.formBody.getD ""))
        (Comentado._ai_reply env.provider (pyStrip (req.formBody.getD "")))) := by
  have hM := mainPy_webhook_post env req hm
  have hC := comentado_webhook_post env req hm
  have hrM := mainPy_routeReply_else env.provider req h1 h2 h4 h5
  have hrC := comentado_routeReply_else env.provider req h1 h2 h3 h4 h5
  constructor
  · rw [hM, hrM]
    exact head_log_message env _ _ _
  · rw [hC, comentado_preEffs_ne env req h3, comentado_postEffs_ne env req h3,
        List.nil_append, hrC]
    exact head_log_message env _ _ _

theorem trim_upfront_casing_preserved_witness :
    (MainPy.webhook okEnv
        { method := "POST", debugArg := none, formBody := some " Que Tal ", formFrom := some "+9" }).2.head? =
      some (Eff.logCall "+9" "Que Tal" "[Que Tal]") := by
  have h := (trim_upfront_casing_preserved okEnv
    { method := "POST", debugArg := none, formBody := some " Que Tal ", formFrom := some "+9" }
    rfl (by decide) (by decide) (by decide) (by decide) (by decide)).1
  rw [h]
  decide

/-- Claim C10: the `/code` prefix match needs no delimiter — for every POST
whose normalized body merely starts with the five characters `"/code"`
(e.g. `"/codear algo"`), both routers hand everything after those five
characters (trimmed, original case) to the code composer, never to the
catch-all conversational composer, and the handler logs that composer reply. -/
theorem code_prefix_no_delimiter (env : Env) (req : HttpRequest)
    (hm : req.method = "POST")
    (h : pyStartswith (pyLower (pyStrip (req.formBody.getD ""))) "/code" = true) :
    MainPy.routeReply env.provider req =
      MainPy._ai_code env.provider
        (pyOr (pyStrip (pyDrop (pyStrip (req.formBody.getD "")) 5)) "python ejemplo básico")
  ∧ Comentado.routeReply env.provider req =
      Comentado._ai_code env.provider
        (pyOr (pyStrip (pyDrop (pyStrip (req.formBody.getD "")) 5))
          "python: imprimir Hola Mundo")
  ∧ (MainPy.webhook env req).2.head? =
      some (Eff.logCall (req.formFrom.getD "desconocido") (pyStrip (req.formBody.getD ""))
        (MainPy._ai_code env.provider
          (pyOr (pyStrip (pyDrop (pyStrip (req.formBody.getD "")) 5))
            "python ejemplo básico"))) := by
  have hM := mainPy_webhook_post env req hm
  have hrM := mainPy_routeReply_code env.provider req h
  have hrC := comentado_routeReply_code env.provider req h
  refine ⟨hrM, hrC, ?_⟩
  rw [hM, hrM]
  exact head_log_message env _ _ _

theorem code_prefix_no_delimiter_witness :
    (MainPy.webhook okEnv
        { method := "POST", debugArg := none, formBody := some "/codear algo", formFrom := some "+1" }).2.head? =
      some (Eff.logCall "+1" "/codear algo" "[ar algo]") := by
  have h := (code_prefix_no_delimiter okEnv
    { method := "POST", debugArg := none, formBody := some "/codear algo", formFrom := some "+1" }
    rfl (by decide)).2.2
  rw [h]
  decide
